import Mathlib

/-!
Shallow embedding of the deoxys execution-state overlay
(`src/crates/client/rpc/src/utils/blockifier_state_adapter.rs`) and the
contract-class codec
(`src/crates/client/db/src/storage_handler/primitives/contract_class.rs`).

Field elements (`StarkFelt`, `ContractAddress`, `StorageKey`, `Nonce`,
`ClassHash`, `CompiledClassHash`) are opaque 252-bit keys compared bitwise;
they are modelled as `Nat`.  `StarkFelt::ONE` is `1`, `StarkFelt::default()`
is `0`.  Rust `IndexMap` is modelled as an association list: lookup returns
the first (unique) binding, insert replaces in place or appends.  Fallible
backend calls return `Except Unit (Option v)`: `.ok (some v)` is a hit,
`.ok none` is "not found", `.error ()` is an opaque I/O failure.
-/

deriving instance DecidableEq for Except

/-- The `blockifier::state::errors::StateError` variants reachable from the
adapter code under `src/`. -/
inductive StateError where
  | OldBlockHashNotProvided : StateError
  | StateReadError : String → StateError
  | UndeclaredClassHash : Nat → StateError
  | StarknetApiError : StateError
deriving DecidableEq, Repr

/-- `starknet_api::deprecated_contract_class::EntryPointType`. -/
inductive EntryPointType where
  | Constructor : EntryPointType
  | External : EntryPointType
  | L1Handler : EntryPointType
deriving DecidableEq, Repr

/-- `blockifier` `EntryPointV1`: a compiled-class entry point carrying a
selector and a function index (the spec's `{selector, function-index}`). -/
structure EntryPointV1 where
  selector : Nat
  function_idx : Nat
deriving DecidableEq, Repr

/-- `starknet_api` `EntryPoint`: a legacy entry point `{selector, code-offset}`. -/
structure EntryPoint where
  selector : Nat
  offset : Nat
deriving DecidableEq, Repr

/-- `blockifier` `ContractClassV1`: an opaque program blob plus the per-kind
entry-point buckets. -/
structure ContractClassV1 where
  program : String
  entry_points_by_type : List (EntryPointType × List EntryPointV1)
deriving DecidableEq, Repr

/-- `blockifier` `ContractClassV0`: an opaque program blob plus the per-kind
legacy entry-point buckets. -/
structure ContractClassV0 where
  program : String
  entry_points_by_type : List (EntryPointType × List EntryPoint)
deriving DecidableEq, Repr

/-- `blockifier::execution::contract_class::ContractClass`. -/
inductive ContractClass where
  | V0 : ContractClassV0 → ContractClass
  | V1 : ContractClassV1 → ContractClass
deriving DecidableEq, Repr

/-- `IndexMap` lookup: first binding of the key. -/
def indexMapGet {α : Type} (m : List (Nat × α)) (k : Nat) : Option α :=
  match m with
  | [] => none
  | (k', v) :: rest => if k' = k then some v else indexMapGet rest k

/-- `IndexMap::insert`: replace the existing binding in place, else append. -/
def indexMapInsert {α : Type} (m : List (Nat × α)) (k : Nat) (v : α) : List (Nat × α) :=
  match m with
  | [] => [(k, v)]
  | (k', v') :: rest => if k' = k then (k', v) :: rest else (k', v') :: indexMapInsert rest k v

/-- `StorageContractClassData`: the persisted class record the backend hands
back (`contract_class` is the stored blob as a JSON string). -/
structure StorageContractClassData where
  contract_class : String
  abi_data : String
  sierra_program_length : Nat
  abi_length : Nat
  block_number : Nat

/-- The versioned backend (`DeoxysBackend`), an external collaborator: each
read is block-parameterized where the code passes a block number, returns
`.ok (some _)` on a hit, `.ok none` when absent, `.error ()` on I/O failure. -/
structure DeoxysBackend where
  get_block_hash : Nat → Except Unit (Option Nat)
  contract_storage_get_at : Nat × Nat → Nat → Except Unit (Option Nat)
  contract_nonces_get_at : Nat → Nat → Except Unit (Option Nat)
  contract_class_hash_get_at : Nat → Nat → Except Unit (Option Nat)
  contract_class_data_get : Nat → Except Unit (Option StorageContractClassData)
  contract_class_hashes_get : Nat → Except Unit (Option Nat)

/-- External static parsers the adapter calls
(`ContractClassV1::try_from_json_string`, `ContractClassV0::try_from_json_string`):
`none` models a parse failure. -/
structure BlockifierExt where
  v1_try_from_json_string : String → Option ContractClassV1
  v0_try_from_json_string : String → Option ContractClassV0

/-- `BlockifierStateAdapter`: the execution-state overlay. Write buffers are
`IndexMap`s keyed exactly as in the source. -/
structure BlockifierStateAdapter where
  backend : DeoxysBackend
  block_number : Nat
  storage_update : List (Nat × List (Nat × Nat))
  nonce_update : List (Nat × Nat)
  class_hash_update : List (Nat × Nat)
  compiled_class_hash_update : List (Nat × Nat)
  contract_class_update : List (Nat × ContractClass)
  visited_pcs : List (Nat × List Nat)

/-- `BlockifierStateAdapter::new`. -/
def BlockifierStateAdapter.new (backend : DeoxysBackend) (block_number : Nat) :
    BlockifierStateAdapter :=
  { backend := backend, block_number := block_number, storage_update := [],
    nonce_update := [], class_hash_update := [], compiled_class_hash_update := [],
    contract_class_update := [], visited_pcs := [] }

/-- `StateReader::get_storage_at`.  The `0x1` oracle branch comes first: the
key is converted to a `u64` block number (`try_into`, failing with
`OldBlockHashNotProvided` when the felt does not fit in 64 bits) and the read
is redirected to `backend.mapping().get_block_hash`.  Otherwise the write
buffer shadows the backend, absence in both defaults to zero. -/
def BlockifierStateAdapter.get_storage_at (s : BlockifierStateAdapter)
    (contract_address : Nat) (key : Nat) : Except StateError Nat :=
  if contract_address = 1 then
    if key < 2 ^ 64 then
      match s.backend.get_block_hash key with
      | .ok (some block_hash) => .ok block_hash
      | .ok none => .error .OldBlockHashNotProvided
      | .error _ => .error (.StateReadError
          ("Failed to retrieve block hash for block number " ++ toString key))
    else .error .OldBlockHashNotProvided
  else
    match (indexMapGet s.storage_update contract_address).bind
        (fun storage => indexMapGet storage key) with
    | some value => .ok value
    | none =>
      match s.backend.contract_storage_get_at (contract_address, key) s.block_number with
      | .ok (some value) => .ok value
      | .ok none => .ok 0
      | .error _ => .error (.StateReadError
          ("Failed to retrieve storage value for contract " ++ toString contract_address
            ++ " at key " ++ toString key))

/-- `StateReader::get_nonce_at`. -/
def BlockifierStateAdapter.get_nonce_at (s : BlockifierStateAdapter)
    (contract_address : Nat) : Except StateError Nat :=
  match indexMapGet s.nonce_update contract_address with
  | some nonce => .ok nonce
  | none =>
    match s.backend.contract_nonces_get_at contract_address s.block_number with
    | .ok (some nonce) => .ok nonce
    | .ok none => .ok 0
    | .error _ => .error (.StateReadError
        ("Failed to retrieve nonce for contract " ++ toString contract_address))

/-- `StateReader::get_class_hash_at`. -/
def BlockifierStateAdapter.get_class_hash_at (s : BlockifierStateAdapter)
    (contract_address : Nat) : Except StateError Nat :=
  match indexMapGet s.class_hash_update contract_address with
  | some class_hash => .ok class_hash
  | none =>
    match s.backend.contract_class_hash_get_at contract_address s.block_number with
    | .ok (some class_hash) => .ok class_hash
    | .ok none => .ok 0
    | .error _ => .error (.StateReadError
        ("Failed to retrieve class hash for contract " ++ toString contract_address))

/-- `StateReader::get_compiled_contract_class`.  On a backend hit the stored
blob is materialized, the V1/V0 branch selected by `sierra_program_length > 0`;
the source's final `_ =>` arm maps both `Ok(None)` and `Err(_)` to
`UndeclaredClassHash`. -/
def BlockifierStateAdapter.get_compiled_contract_class (ext : BlockifierExt)
    (s : BlockifierStateAdapter) (class_hash : Nat) : Except StateError ContractClass :=
  match indexMapGet s.contract_class_update class_hash with
  | some contract_class => .ok contract_class
  | none =>
    match s.backend.contract_class_data_get class_hash with
    | .ok (some contract_class_data) =>
      if contract_class_data.sierra_program_length > 0 then
        match ext.v1_try_from_json_string contract_class_data.contract_class with
        | some c => .ok (.V1 c)
        | none => .error (.StateReadError "Failed to convert contract class V1")
      else
        match ext.v0_try_from_json_string contract_class_data.contract_class with
        | some c => .ok (.V0 c)
        | none => .error (.StateReadError "Failed to convert contract class V0")
    | _ => .error (.UndeclaredClassHash class_hash)

/-- `StateReader::get_compiled_class_hash`. -/
def BlockifierStateAdapter.get_compiled_class_hash (s : BlockifierStateAdapter)
    (class_hash : Nat) : Except StateError Nat :=
  match indexMapGet s.compiled_class_hash_update class_hash with
  | some compiled_class_hash => .ok compiled_class_hash
  | none =>
    match s.backend.contract_class_hashes_get class_hash with
    | .error _ => .error (.StateReadError
        ("failed to retrive compiled class hash at class hash " ++ toString class_hash))
    | .ok none => .error (.UndeclaredClassHash class_hash)
    | .ok (some h) => .ok h

/-- `State::set_storage_at`: buffer the write
(`entry(contract_address).or_default().insert(key, value)`), always `Ok(())`. -/
def BlockifierStateAdapter.set_storage_at (s : BlockifierStateAdapter)
    (contract_address : Nat) (key : Nat) (value : Nat) :
    Except StateError Unit × BlockifierStateAdapter :=
  (.ok (),
    { s with storage_update :=
        match indexMapGet s.storage_update contract_address with
        | some storage =>
            indexMapInsert s.storage_update contract_address (indexMapInsert storage key value)
        | none => s.storage_update ++ [(contract_address, [(key, value)])] })

/-!
Contract-class codec
(`src/crates/client/db/src/storage_handler/primitives/contract_class.rs`).
`HashMap` is modelled as an association list with decidable-equality keys;
external starknet-rs / cairo-vm / serde operations (program serialization,
ABI JSON parsing, sierra-program iteration) are explicit `CodecExt`
parameters; gzip (flate2) is an explicit `GzipCodec` parameter carrying its
documented losslessness contract.
-/

/-- `HashMap::get` on an association list. -/
def hashMapGet {κ α : Type} [DecidableEq κ] (m : List (κ × α)) (k : κ) : Option α :=
  match m with
  | [] => none
  | (k', v) :: rest => if k' = k then some v else hashMapGet rest k

/-- Rust `{:?}` (Debug) rendering of `EntryPointType`, used in the
`Missing {:?} entry point` error message. -/
def entryPointTypeDebug : EntryPointType → String
  | .Constructor => "Constructor"
  | .External => "External"
  | .L1Handler => "L1Handler"

/-- starknet-rs `LegacyContractEntryPoint`. -/
structure LegacyContractEntryPoint where
  selector : Nat
  offset : Nat
deriving DecidableEq, Repr

/-- starknet-rs `SierraEntryPoint`. -/
structure SierraEntryPoint where
  selector : Nat
  function_idx : Nat
deriving DecidableEq, Repr

/-- starknet-rs `LegacyEntryPointsByType`. -/
structure LegacyEntryPointsByType where
  constructor_ : List LegacyContractEntryPoint
  external : List LegacyContractEntryPoint
  l1_handler : List LegacyContractEntryPoint
deriving DecidableEq, Repr

/-- starknet-rs `EntryPointsByType` (sierra wire form). -/
structure EntryPointsByType where
  constructor_ : List SierraEntryPoint
  external : List SierraEntryPoint
  l1_handler : List SierraEntryPoint
deriving DecidableEq, Repr

/-- `to_legacy_entry_point`: selector and offset are carried over. -/
def to_legacy_entry_point (entry_point : EntryPoint) : LegacyContractEntryPoint :=
  { selector := entry_point.selector, offset := entry_point.offset }

/-- `to_entry_point`: the selector is carried over, `function_idx` is set to
the caller-supplied `index` — the input's own `function_idx` is ignored. -/
def to_entry_point (entry_point : EntryPointV1) (index : Nat) : SierraEntryPoint :=
  { selector := entry_point.selector, function_idx := index }

/-- The inner `collect_entry_points` of `to_legacy_entry_points_by_type`:
absence of the requested bucket is the error `Missing {:?} entry point`. -/
def collect_legacy_entry_points (entries : List (EntryPointType × List EntryPoint))
    (entry_point_type : EntryPointType) : Except String (List LegacyContractEntryPoint) :=
  match hashMapGet entries entry_point_type with
  | none => .error ("Missing " ++ entryPointTypeDebug entry_point_type ++ " entry point")
  | some l => .ok (l.map to_legacy_entry_point)

/-- `to_legacy_entry_points_by_type`: `Constructor` and `L1Handler` fall back
to the empty list (`unwrap_or_default`), a missing `External` bucket is a hard
error (`?`). -/
def to_legacy_entry_points_by_type (entries : List (EntryPointType × List EntryPoint)) :
    Except String LegacyEntryPointsByType :=
  let constructor_ := match collect_legacy_entry_points entries .Constructor with
    | .ok l => l
    | .error _ => []
  match collect_legacy_entry_points entries .External with
  | .error e => .error e
  | .ok external =>
    let l1_handler := match collect_legacy_entry_points entries .L1Handler with
      | .ok l => l
      | .error _ => []
    .ok { constructor_ := constructor_, external := external, l1_handler := l1_handler }

/-- The inner `collect_entry_points` of `to_entry_points_by_type`: entries are
enumerated and each output `function_idx` is the zero-based position. -/
def collect_sierra_entry_points (entries : List (EntryPointType × List EntryPointV1))
    (entry_point_type : EntryPointType) : Except String (List SierraEntryPoint) :=
  match hashMapGet entries entry_point_type with
  | none => .error ("Missing " ++ entryPointTypeDebug entry_point_type ++ " entry point")
  | some l => .ok (l.enum.map fun ie => to_entry_point ie.2 ie.1)

/-- `to_entry_points_by_type`: same bucket policy as the legacy variant, with
positional reassignment of function indices. -/
def to_entry_points_by_type (entries : List (EntryPointType × List EntryPointV1)) :
    Except String EntryPointsByType :=
  let constructor_ := match collect_sierra_entry_points entries .Constructor with
    | .ok l => l
    | .error _ => []
  match collect_sierra_entry_points entries .External with
  | .error e => .error e
  | .ok external =>
    let l1_handler := match collect_sierra_entry_points entries .L1Handler with
      | .ok l => l
      | .error _ => []
    .ok { constructor_ := constructor_, external := external, l1_handler := l1_handler }

/-- `ContractAbi`: `Sierra(String)` or `Cairo(Option<String>)`. -/
inductive ContractAbi where
  | Sierra : String → ContractAbi
  | Cairo : Option String → ContractAbi
deriving DecidableEq, Repr

/-- `ContractAbi::length`. -/
def ContractAbi.length : ContractAbi → Nat
  | .Sierra abi => abi.length
  | .Cairo (some entries) => entries.length
  | .Cairo none => 0

/-- `ContractClassWrapper`. -/
structure ContractClassWrapper where
  contract : ContractClass
  abi : ContractAbi
  sierra_program_length : Nat
  abi_length : Nat

/-- starknet-rs `LegacyContractAbiEntry`, opaque to this codec (only produced
by serde parsing, never inspected). -/
structure LegacyContractAbiEntry where
  data : String
deriving DecidableEq, Repr

/-- starknet-rs `FlattenedSierraClass`. -/
structure FlattenedSierraClass where
  sierra_program : List Nat
  contract_class_version : String
  entry_points_by_type : EntryPointsByType
  abi : String
deriving DecidableEq, Repr

/-- starknet-rs `CompressedLegacyContractClass`. -/
structure CompressedLegacyContractClass where
  program : List Nat
  entry_points_by_type : LegacyEntryPointsByType
  abi : Option (List LegacyContractAbiEntry)
deriving DecidableEq, Repr

/-- starknet-rs `ContractClass` (named `ContractClassCore` in the source). -/
inductive ContractClassCore where
  | Sierra : FlattenedSierraClass → ContractClassCore
  | Legacy : CompressedLegacyContractClass → ContractClassCore
deriving DecidableEq, Repr

/-- Conversion failures: `Msg` models an `anyhow` error value, `Panic` models
a Rust panic (the `abi.unwrap()` on `None` in `to_contract_class_cairo`). -/
inductive CodecError where
  | Msg : String → CodecError
  | Panic : String → CodecError
deriving DecidableEq, Repr

/-- External operations the codec calls out to: cairo-vm program
serialization (`program.serialize()`, fallible), serde ABI JSON parsing
(`serde_json::from_str`, fallible, target `Option<Vec<LegacyContractAbiEntry>>`),
and sierra program data iteration (`program.iter_data()` + felt extraction,
total). -/
structure CodecExt where
  serialize_program : String → Option (List Nat)
  parse_abi : String → Option (Option (List LegacyContractAbiEntry))
  program_iter_data : String → List Nat

/-- `to_contract_class_cairo`: serialize the program, reshape the entry
points, then `abi.unwrap()` (a panic when the ABI is absent) and parse it. -/
def to_contract_class_cairo (ext : CodecExt) (contract_class : ContractClassV0)
    (abi : Option String) : Except CodecError ContractClassCore :=
  match ext.serialize_program contract_class.program with
  | none => .error (.Msg "serializing program")
  | some serialized_program =>
    match to_legacy_entry_points_by_type contract_class.entry_points_by_type with
    | .error e => .error (.Msg e)
    | .ok serialized_entry_points =>
      match abi with
      | none => .error (.Panic "called `Option::unwrap()` on a `None` value")
      | some abi_string =>
        match ext.parse_abi abi_string with
        | none => .error (.Msg "deserializing abi")
        | some serialized_abi =>
          .ok (.Legacy { program := serialized_program,
                         entry_points_by_type := serialized_entry_points,
                         abi := serialized_abi })

/-- `to_contract_class_sierra`: reshape entry points (positional reindexing),
flatten the program data, fixed version string `0.1.0`, ABI carried through. -/
def to_contract_class_sierra (ext : CodecExt) (sierra_class : ContractClassV1)
    (abi : String) : Except CodecError ContractClassCore :=
  match to_entry_points_by_type sierra_class.entry_points_by_type with
  | .error e => .error (.Msg e)
  | .ok entry_points_by_type =>
    .ok (.Sierra { sierra_program := ext.program_iter_data sierra_class.program,
                   contract_class_version := "0.1.0",
                   entry_points_by_type := entry_points_by_type,
                   abi := abi })

/-- `impl TryInto<ContractClassCore> for ContractClassWrapper`: a `V0`
contract demands a `Cairo` ABI, a `V1` contract demands a `Sierra` ABI; any
other pairing is the corresponding `Invalid ABI type` error. -/
def ContractClassWrapper.try_into_core (ext : CodecExt) (w : ContractClassWrapper) :
    Except CodecError ContractClassCore :=
  match w.contract with
  | .V0 contract_class =>
    match w.abi with
    | .Cairo opt_string => to_contract_class_cairo ext contract_class opt_string
    | _ => .error (.Msg "Invalid ABI type for Cairo")
  | .V1 contract_class =>
    match w.abi with
    | .Sierra string => to_contract_class_sierra ext contract_class string
    | _ => .error (.Msg "Invalid ABI type for Sierra")

/-- starknet-rs `FunctionStateMutability` (only `View` occurs). -/
inductive FunctionStateMutability where
  | View : FunctionStateMutability
deriving DecidableEq, Repr

/-- starknet-rs `LegacyTypedParameter`. -/
structure LegacyTypedParameter where
  name : String
  type : String
deriving DecidableEq, Repr

/-- starknet-rs `RawLegacyFunction`. -/
structure RawLegacyFunction where
  name : String
  inputs : List LegacyTypedParameter
  outputs : List LegacyTypedParameter
  state_mutability : Option FunctionStateMutability
deriving DecidableEq, Repr

/-- starknet-rs `RawLegacyEvent`. -/
structure RawLegacyEvent where
  name : String
  keys : List LegacyTypedParameter
  data : List LegacyTypedParameter
deriving DecidableEq, Repr

/-- starknet-rs `RawLegacyMember`. -/
structure RawLegacyMember where
  name : String
  type : String
  offset : Nat
deriving DecidableEq, Repr

/-- starknet-rs `RawLegacyStruct`. -/
structure RawLegacyStruct where
  name : String
  size : Nat
  members : List RawLegacyMember
deriving DecidableEq, Repr

/-- starknet-rs `RawLegacyConstructor`. -/
structure RawLegacyConstructor where
  name : String
  inputs : List LegacyTypedParameter
deriving DecidableEq, Repr

/-- starknet-rs `RawLegacyL1Handler`. -/
structure RawLegacyL1Handler where
  name : String
  inputs : List LegacyTypedParameter
deriving DecidableEq, Repr

/-- starknet-rs `RawLegacyAbiEntry`: the wire-form legacy ABI entry. -/
inductive RawLegacyAbiEntry where
  | Function : RawLegacyFunction → RawLegacyAbiEntry
  | Event : RawLegacyEvent → RawLegacyAbiEntry
  | Struct : RawLegacyStruct → RawLegacyAbiEntry
  | Constructor : RawLegacyConstructor → RawLegacyAbiEntry
  | L1Handler : RawLegacyL1Handler → RawLegacyAbiEntry
deriving DecidableEq, Repr

/-- `AbiFunctionStateMutabilityWrapper`. -/
inductive AbiFunctionStateMutabilityWrapper where
  | View : AbiFunctionStateMutabilityWrapper
deriving DecidableEq, Repr

/-- `AbiTypedParameterWrapper`. -/
structure AbiTypedParameterWrapper where
  name : String
  type : String
deriving DecidableEq, Repr

/-- `AbiFunctionEntryWrapper`. -/
structure AbiFunctionEntryWrapper where
  name : String
  inputs : List AbiTypedParameterWrapper
  outputs : List AbiTypedParameterWrapper
  state_mutability : Option AbiFunctionStateMutabilityWrapper
deriving DecidableEq, Repr

/-- `AbiEventEntryWrapper`. -/
structure AbiEventEntryWrapper where
  name : String
  keys : List AbiTypedParameterWrapper
  data : List AbiTypedParameterWrapper
deriving DecidableEq, Repr

/-- `AbiStructMemberWrapper`. -/
structure AbiStructMemberWrapper where
  name : String
  type : String
  offset : Nat
deriving DecidableEq, Repr

/-- `AbiStructEntryWrapper`. -/
structure AbiStructEntryWrapper where
  name : String
  size : Nat
  members : List AbiStructMemberWrapper
deriving DecidableEq, Repr

/-- `AbiEntryWrapper`: the internal tagged ABI entry — only `Function`,
`Event` and `Struct` exist. -/
inductive AbiEntryWrapper where
  | Function : AbiFunctionEntryWrapper → AbiEntryWrapper
  | Event : AbiEventEntryWrapper → AbiEntryWrapper
  | Struct : AbiStructEntryWrapper → AbiEntryWrapper
deriving DecidableEq, Repr

/-- `impl From<LegacyTypedParameter> for AbiTypedParameterWrapper`. -/
def AbiTypedParameterWrapper.fromLegacy (p : LegacyTypedParameter) :
    AbiTypedParameterWrapper :=
  { name := p.name, type := p.type }

/-- `impl From<AbiTypedParameterWrapper> for LegacyTypedParameter`. -/
def LegacyTypedParameter.fromWrapper (p : AbiTypedParameterWrapper) :
    LegacyTypedParameter :=
  { name := p.name, type := p.type }

/-- `impl From<FunctionStateMutability> for AbiFunctionStateMutabilityWrapper`. -/
def AbiFunctionStateMutabilityWrapper.fromCore :
    FunctionStateMutability → AbiFunctionStateMutabilityWrapper
  | .View => .View

/-- `impl From<AbiFunctionStateMutabilityWrapper> for FunctionStateMutability`. -/
def FunctionStateMutability.fromWrapper :
    AbiFunctionStateMutabilityWrapper → FunctionStateMutability
  | .View => .View

/-- `impl From<RawLegacyFunction> for AbiFunctionEntryWrapper`. -/
def AbiFunctionEntryWrapper.fromRaw (f : RawLegacyFunction) : AbiFunctionEntryWrapper :=
  { name := f.name,
    inputs := f.inputs.map AbiTypedParameterWrapper.fromLegacy,
    outputs := f.outputs.map AbiTypedParameterWrapper.fromLegacy,
    state_mutability := f.state_mutability.map AbiFunctionStateMutabilityWrapper.fromCore }

/-- `impl From<AbiFunctionEntryWrapper> for RawLegacyFunction`. -/
def RawLegacyFunction.fromWrapper (f : AbiFunctionEntryWrapper) : RawLegacyFunction :=
  { name := f.name,
    inputs := f.inputs.map LegacyTypedParameter.fromWrapper,
    outputs := f.outputs.map LegacyTypedParameter.fromWrapper,
    state_mutability := f.state_mutability.map FunctionStateMutability.fromWrapper }

/-- `impl From<RawLegacyEvent> for AbiEventEntryWrapper`. -/
def AbiEventEntryWrapper.fromRaw (e : RawLegacyEvent) : AbiEventEntryWrapper :=
  { name := e.name,
    keys := e.keys.map AbiTypedParameterWrapper.fromLegacy,
    data := e.data.map AbiTypedParameterWrapper.fromLegacy }

/-- `impl From<AbiEventEntryWrapper> for RawLegacyEvent`. -/
def RawLegacyEvent.fromWrapper (e : AbiEventEntryWrapper) : RawLegacyEvent :=
  { name := e.name,
    keys := e.keys.map LegacyTypedParameter.fromWrapper,
    data := e.data.map LegacyTypedParameter.fromWrapper }

/-- `impl From<RawLegacyMember> for AbiStructMemberWrapper`. -/
def AbiStructMemberWrapper.fromRaw (m : RawLegacyMember) : AbiStructMemberWrapper :=
  { name := m.name, type := m.type, offset := m.offset }

/-- `impl From<AbiStructMemberWrapper> for RawLegacyMember`. -/
def RawLegacyMember.fromWrapper (m : AbiStructMemberWrapper) : RawLegacyMember :=
  { name := m.name, type := m.type, offset := m.offset }

/-- `impl From<RawLegacyStruct> for AbiStructEntryWrapper`. -/
def AbiStructEntryWrapper.fromRaw (s : RawLegacyStruct) : AbiStructEntryWrapper :=
  { name := s.name, size := s.size, members := s.members.map AbiStructMemberWrapper.fromRaw }

/-- `impl From<AbiStructEntryWrapper> for RawLegacyStruct`. -/
def RawLegacyStruct.fromWrapper (s : AbiStructEntryWrapper) : RawLegacyStruct :=
  { name := s.name, size := s.size, members := s.members.map RawLegacyMember.fromWrapper }

/-- `impl From<RawLegacyAbiEntry> for AbiEntryWrapper`: `Constructor` and
`L1Handler` are folded into `Function` entries named `constructor` /
`l1_handler` with the original inputs, empty outputs and no mutability. -/
def AbiEntryWrapper.fromRaw (abi_entry : RawLegacyAbiEntry) : AbiEntryWrapper :=
  match abi_entry with
  | .Function abi_function => .Function (AbiFunctionEntryWrapper.fromRaw abi_function)
  | .Event abi_event => .Event (AbiEventEntryWrapper.fromRaw abi_event)
  | .Struct abi_struct => .Struct (AbiStructEntryWrapper.fromRaw abi_struct)
  | .Constructor abi_constructor =>
    .Function (AbiFunctionEntryWrapper.fromRaw
      { name := "constructor", inputs := abi_constructor.inputs, outputs := [],
        state_mutability := none })
  | .L1Handler abi_l1_handler =>
    .Function (AbiFunctionEntryWrapper.fromRaw
      { name := "l1_handler", inputs := abi_l1_handler.inputs, outputs := [],
        state_mutability := none })

/-- `impl From<AbiEntryWrapper> for RawLegacyAbiEntry`: only `Function`,
`Event` and `Struct` can ever be produced. -/
def RawLegacyAbiEntry.fromWrapper (abi_entry : AbiEntryWrapper) : RawLegacyAbiEntry :=
  match abi_entry with
  | .Function abi_function => .Function (RawLegacyFunction.fromWrapper abi_function)
  | .Event abi_event => .Event (RawLegacyEvent.fromWrapper abi_event)
  | .Struct abi_struct => .Struct (RawLegacyStruct.fromWrapper abi_struct)

/-- Tag classifier for wire ABI entries. -/
def RawLegacyAbiEntry.isFunctionTagged : RawLegacyAbiEntry → Bool
  | .Function _ => true
  | _ => false

/-- The flate2 gzip codec, an external collaborator: `encode` models
`GzEncoder::write_all` + `finish` at `Compression::fast`, `decode` models
`GzDecoder::read_to_end` (fallible on corrupt input).  `decode_encode` is the
library's documented losslessness contract. -/
structure GzipCodec where
  encode : List Nat → List Nat
  decode : List Nat → Except String (List Nat)
  decode_encode : ∀ data, decode (encode data) = .ok data

/-- `compress`: writing to an in-memory `Vec` never fails, so the fallible
signature always returns the encoded bytes. -/
def compress (gz : GzipCodec) (data : List Nat) : Except String (List Nat) :=
  .ok (gz.encode data)

/-- `decompress`: `read_to_end` through the gzip decoder. -/
def decompress (gz : GzipCodec) (data : List Nat) : Except String (List Nat) :=
  gz.decode data

/-- Tag classifier: is the wire ABI entry `Constructor`- or `L1Handler`-tagged? -/
def RawLegacyAbiEntry.isConstructorOrL1HandlerTagged : RawLegacyAbiEntry → Bool
  | .Constructor _ => true
  | .L1Handler _ => true
  | _ => false

/-- Result classifier: did the adapter read end in `StateReadError`? -/
def isStateReadError {α : Type} : Except StateError α → Bool
  | .error (.StateReadError _) => true
  | _ => false

/-- A backend whose every lookup reports "not found". -/
def bkNone : DeoxysBackend :=
  { get_block_hash := fun _ => .ok none,
    contract_storage_get_at := fun _ _ => .ok none,
    contract_nonces_get_at := fun _ _ => .ok none,
    contract_class_hash_get_at := fun _ _ => .ok none,
    contract_class_data_get := fun _ => .ok none,
    contract_class_hashes_get := fun _ => .ok none }

/-- A backend whose every lookup fails with an I/O error. -/
def bkErr : DeoxysBackend :=
  { get_block_hash := fun _ => .error (),
    contract_storage_get_at := fun _ _ => .error (),
    contract_nonces_get_at := fun _ _ => .error (),
    contract_class_hash_get_at := fun _ _ => .error (),
    contract_class_data_get := fun _ => .error (),
    contract_class_hashes_get := fun _ => .error () }

/-- A backend that knows the hash of block 4 (value 99) and nothing else. -/
def bkOracle : DeoxysBackend :=
  { get_block_hash := fun n => if n = 4 then .ok (some 99) else .ok none,
    contract_storage_get_at := fun _ _ => .ok none,
    contract_nonces_get_at := fun _ _ => .ok none,
    contract_class_hash_get_at := fun _ _ => .ok none,
    contract_class_data_get := fun _ => .ok none,
    contract_class_hashes_get := fun _ => .ok none }

/-- Fresh overlay over `bkNone` at snapshot block 5. -/
def sNone : BlockifierStateAdapter := .new bkNone 5

/-- Fresh overlay over `bkErr` at snapshot block 5. -/
def sErr : BlockifierStateAdapter := .new bkErr 5

/-- Fresh overlay over `bkOracle` at snapshot block 5. -/
def sOracle : BlockifierStateAdapter := .new bkOracle 5

/-- Parsers that reject every blob (never reached in the facts below). -/
def extNone : BlockifierExt :=
  { v1_try_from_json_string := fun _ => none, v0_try_from_json_string := fun _ => none }

theorem indexMapGet_insert_self {α : Type} (m : List (Nat × α)) (k : Nat) (v : α) :
    indexMapGet (indexMapInsert m k v) k = some v := by
  induction m with
  | nil => simp [indexMapInsert, indexMapGet]
  | cons hd tl ih =>
    obtain ⟨k', v'⟩ := hd
    by_cases hk : k' = k
    · simp [indexMapInsert, indexMapGet, hk]
    · simp [indexMapInsert, indexMapGet, hk, ih]

theorem indexMapGet_append_none {α : Type} (m : List (Nat × α)) (k : Nat) (v : α)
    (h : indexMapGet m k = none) : indexMapGet (m ++ [(k, v)]) k = some v := by
  induction m with
  | nil => simp [indexMapGet]
  | cons hd tl ih =>
    obtain ⟨k', v'⟩ := hd
    by_cases hk : k' = k
    · simp [indexMapGet, hk] at h
    · simp only [indexMapGet, hk, if_false, List.cons_append] at h ⊢
      exact ih h

theorem hashMapGet_map_snd {κ α β : Type} [DecidableEq κ] (m : List (κ × α)) (F : α → β)
    (k : κ) : hashMapGet (m.map fun kv => (kv.1, F kv.2)) k = (hashMapGet m k).map F := by
  induction m with
  | nil => simp [hashMapGet]
  | cons hd tl ih =>
    obtain ⟨k', v'⟩ := hd
    by_cases hk : k' = k
    · simp [hashMapGet, hk]
    · simp [hashMapGet, hk, ih]

/-- C1 (amended): read-your-writes holds for every contract address other
than the reserved oracle address `0x1` — after `set_storage_at(addr,key,v)`,
`get_storage_at(addr,key)` on the same overlay returns `Ok(v)` regardless of
the backend's value at the snapshot block. -/
theorem C1_read_your_writes_non_oracle (s : BlockifierStateAdapter)
    (addr key value : Nat) (h : addr ≠ 1) :
    ((BlockifierStateAdapter.set_storage_at s addr key value).2).get_storage_at addr key =
      .ok value := by
  have hbuf :
      (indexMapGet ((BlockifierStateAdapter.set_storage_at s addr key value).2).storage_update
          addr).bind (fun storage => indexMapGet storage key) = some value := by
    cases hm : indexMapGet s.storage_update addr with
    | some st =>
      simp [BlockifierStateAdapter.set_storage_at, hm, indexMapGet_insert_self]
    | none =>
      simp [BlockifierStateAdapter.set_storage_at, hm,
        indexMapGet_append_none s.storage_update addr _ hm, indexMapGet]
  unfold BlockifierStateAdapter.get_storage_at
  rw [if_neg h, hbuf]

/-- C1 witness: a concrete non-oracle write is read back. -/
theorem C1_read_your_writes_witness : (2 : Nat) ≠ 1 ∧
    ((BlockifierStateAdapter.set_storage_at sNone 2 3 7).2).get_storage_at 2 3 = .ok 7 :=
  ⟨by decide, C1_read_your_writes_non_oracle sNone 2 3 7 (by decide)⟩

/-- C1 counterexample: at the reserved address `0x1` the claim fails — the
write is buffered but the read takes the oracle branch, so with a backend
that knows no block hashes the read errors instead of returning `Ok(7)`. -/
theorem C1_oracle_address_counterexample :
    ((BlockifierStateAdapter.set_storage_at sNone 1 0 7).2).get_storage_at 1 0 =
      .error .OldBlockHashNotProvided ∧
    ((BlockifierStateAdapter.set_storage_at sNone 1 0 7).2).get_storage_at 1 0 ≠ .ok 7 := by
  exact ⟨rfl, by decide⟩

/-- C10: at address `0x1` the oracle branch precedes the write buffer: a
buffered write at `0x1` never changes the read, which is the backend's block
hash for the key when known, `OldBlockHashNotProvided` when the key exceeds
`u64` or the hash is absent. -/
theorem C10_oracle_ignores_write_buffer (s : BlockifierStateAdapter) (key value : Nat) :
    ((BlockifierStateAdapter.set_storage_at s 1 key value).2).get_storage_at 1 key =
      s.get_storage_at 1 key ∧
    (∀ bh, key < 2 ^ 64 → s.backend.get_block_hash key = .ok (some bh) →
      s.get_storage_at 1 key = .ok bh) ∧
    (key < 2 ^ 64 → s.backend.get_block_hash key = .ok none →
      s.get_storage_at 1 key = .error .OldBlockHashNotProvided) ∧
    (2 ^ 64 ≤ key → s.get_storage_at 1 key = .error .OldBlockHashNotProvided) := by
  refine ⟨rfl, ?_, ?_, ?_⟩
  · intro bh hk hbh
    unfold BlockifierStateAdapter.get_storage_at
    rw [if_pos rfl, if_pos hk, hbh]
  · intro hk hbh
    unfold BlockifierStateAdapter.get_storage_at
    rw [if_pos rfl, if_pos hk, hbh]
  · intro hk
    unfold BlockifierStateAdapter.get_storage_at
    rw [if_pos rfl, if_neg (not_lt.mpr hk)]

/-- C10 witness: concrete oracle reads before/after a buffered write. -/
theorem C10_oracle_ignores_write_buffer_witness :
    ((BlockifierStateAdapter.set_storage_at sOracle 1 4 7).2).get_storage_at 1 4 =
      sOracle.get_storage_at 1 4 ∧
    sOracle.get_storage_at 1 4 = .ok 99 ∧
    sOracle.get_storage_at 1 5 = .error .OldBlockHashNotProvided ∧
    sOracle.get_storage_at 1 (2 ^ 64) = .error .OldBlockHashNotProvided :=
  ⟨(C10_oracle_ignores_write_buffer sOracle 4 7).1,
   (C10_oracle_ignores_write_buffer sOracle 4 7).2.1 99 (by decide) rfl,
   (C10_oracle_ignores_write_buffer sOracle 5 7).2.2.1 (by decide) rfl,
   (C10_oracle_ignores_write_buffer sOracle (2 ^ 64) 7).2.2.2 (le_refl _)⟩

/-- C2: reading storage at the reserved address `0x1` with key = block number
`K` returns the hash of block `K` when the backend knows it and fails with
`OldBlockHashNotProvided` when it does not; at every other address the same
key is ordinary storage, defaulting to zero when absent in buffer and
backend. -/
theorem C2_block_hash_oracle_carve_out (s : BlockifierStateAdapter) :
    (∀ key bh, key < 2 ^ 64 → s.backend.get_block_hash key = .ok (some bh) →
      s.get_storage_at 1 key = .ok bh) ∧
    (∀ key, key < 2 ^ 64 → s.backend.get_block_hash key = .ok none →
      s.get_storage_at 1 key = .error .OldBlockHashNotProvided) ∧
    (∀ addr key, addr ≠ 1 →
      (indexMapGet s.storage_update addr).bind (fun storage => indexMapGet storage key) =
        none →
      s.backend.contract_storage_get_at (addr, key) s.block_number = .ok none →
      s.get_storage_at addr key = .ok 0) := by
  refine ⟨?_, ?_, ?_⟩
  · intro key bh hk hbh
    unfold BlockifierStateAdapter.get_storage_at
    rw [if_pos rfl, if_pos hk, hbh]
  · intro key hk hbh
    unfold BlockifierStateAdapter.get_storage_at
    rw [if_pos rfl, if_pos hk, hbh]
  · intro addr key h hbuf hbk
    unfold BlockifierStateAdapter.get_storage_at
    rw [if_neg h, hbuf, hbk]

/-- C2 witness: concrete oracle hit, oracle miss, and ordinary zero-default
read of the same key at a non-oracle address. -/
theorem C2_block_hash_oracle_carve_out_witness :
    sOracle.get_storage_at 1 4 = .ok 99 ∧
    sOracle.get_storage_at 1 5 = .error .OldBlockHashNotProvided ∧
    sOracle.get_storage_at 2 4 = .ok 0 :=
  ⟨(C2_block_hash_oracle_carve_out sOracle).1 4 99 (by decide) rfl,
   (C2_block_hash_oracle_carve_out sOracle).2.1 5 (by decide) rfl,
   (C2_block_hash_oracle_carve_out sOracle).2.2 2 4 (by decide) rfl rfl⟩

/-- C3 (amended): a backend I/O failure on a key absent from the write buffer
surfaces as `StateReadError` with operation/key context for `get_storage_at`,
`get_nonce_at`, `get_class_hash_at` and `get_compiled_class_hash`; for
`get_compiled_contract_class`, however, the source's catch-all match arm maps
an I/O failure to `UndeclaredClassHash`, not `StateReadError`. -/
theorem C3_backend_io_error_surfacing (s : BlockifierStateAdapter) :
    (∀ addr key, addr ≠ 1 →
      (indexMapGet s.storage_update addr).bind (fun storage => indexMapGet storage key) =
        none →
      s.backend.contract_storage_get_at (addr, key) s.block_number = .error () →
      s.get_storage_at addr key = .error (.StateReadError
        ("Failed to retrieve storage value for contract " ++ toString addr
          ++ " at key " ++ toString key))) ∧
    (∀ addr, indexMapGet s.nonce_update addr = none →
      s.backend.contract_nonces_get_at addr s.block_number = .error () →
      s.get_nonce_at addr = .error (.StateReadError
        ("Failed to retrieve nonce for contract " ++ toString addr))) ∧
    (∀ addr, indexMapGet s.class_hash_update addr = none →
      s.backend.contract_class_hash_get_at addr s.block_number = .error () →
      s.get_class_hash_at addr = .error (.StateReadError
        ("Failed to retrieve class hash for contract " ++ toString addr))) ∧
    (∀ ch, indexMapGet s.compiled_class_hash_update ch = none →
      s.backend.contract_class_hashes_get ch = .error () →
      s.get_compiled_class_hash ch = .error (.StateReadError
        ("failed to retrive compiled class hash at class hash " ++ toString ch))) ∧
    (∀ ext ch, indexMapGet s.contract_class_update ch = none →
      s.backend.contract_class_data_get ch = .error () →
      BlockifierStateAdapter.get_compiled_contract_class ext s ch =
        .error (.UndeclaredClassHash ch)) := by
  refine ⟨?_, ?_, ?_, ?_, ?_⟩
  · intro addr key h hbuf hbk
    unfold BlockifierStateAdapter.get_storage_at
    rw [if_neg h, hbuf, hbk]
  · intro addr hbuf hbk
    unfold BlockifierStateAdapter.get_nonce_at
    rw [hbuf, hbk]
  · intro addr hbuf hbk
    unfold BlockifierStateAdapter.get_class_hash_at
    rw [hbuf, hbk]
  · intro ch hbuf hbk
    unfold BlockifierStateAdapter.get_compiled_class_hash
    rw [hbuf, hbk]
  · intro ext ch hbuf hbk
    unfold BlockifierStateAdapter.get_compiled_contract_class
    rw [hbuf, hbk]

/-- C3 witness: concrete I/O failures on an overlay with empty buffers. -/
theorem C3_backend_io_error_surfacing_witness :
    sErr.get_storage_at 2 3 = .error (.StateReadError
      ("Failed to retrieve storage value for contract " ++ toString (2 : Nat)
        ++ " at key " ++ toString (3 : Nat))) ∧
    sErr.get_nonce_at 2 = .error (.StateReadError
      ("Failed to retrieve nonce for contract " ++ toString (2 : Nat))) ∧
    sErr.get_class_hash_at 2 = .error (.StateReadError
      ("Failed to retrieve class hash for contract " ++ toString (2 : Nat))) ∧
    sErr.get_compiled_class_hash 9 = .error (.StateReadError
      ("failed to retrive compiled class hash at class hash " ++ toString (9 : Nat))) ∧
    BlockifierStateAdapter.get_compiled_contract_class extNone sErr 9 =
      .error (.UndeclaredClassHash 9) :=
  ⟨(C3_backend_io_error_surfacing sErr).1 2 3 (by decide) rfl rfl,
   (C3_backend_io_error_surfacing sErr).2.1 2 rfl rfl,
   (C3_backend_io_error_surfacing sErr).2.2.1 2 rfl rfl,
   (C3_backend_io_error_surfacing sErr).2.2.2.1 9 rfl rfl,
   (C3_backend_io_error_surfacing sErr).2.2.2.2 extNone 9 rfl rfl⟩

/-- C3 counterexample: on a backend I/O failure, `get_compiled_contract_class`
returns `UndeclaredClassHash(9)` — a not-found error, not a `StateReadError` —
refuting the claim for that operation. -/
theorem C3_class_read_io_error_counterexample :
    BlockifierStateAdapter.get_compiled_contract_class extNone sErr 9 =
      .error (.UndeclaredClassHash 9) ∧
    isStateReadError (BlockifierStateAdapter.get_compiled_contract_class extNone sErr 9) =
      false :=
  ⟨rfl, rfl⟩

/-- C4: against a backend that reports "not found", an overlay with an empty
buffer for the key defaults storage (non-oracle address), nonce and
class-hash-at-address to zero, while `get_compiled_contract_class` and
`get_compiled_class_hash` fail with `UndeclaredClassHash`. -/
theorem C4_absent_defaults_vs_undeclared (s : BlockifierStateAdapter) :
    (∀ addr key, addr ≠ 1 →
      (indexMapGet s.storage_update addr).bind (fun storage => indexMapGet storage key) =
        none →
      s.backend.contract_storage_get_at (addr, key) s.block_number = .ok none →
      s.get_storage_at addr key = .ok 0) ∧
    (∀ addr, indexMapGet s.nonce_update addr = none →
      s.backend.contract_nonces_get_at addr s.block_number = .ok none →
      s.get_nonce_at addr = .ok 0) ∧
    (∀ addr, indexMapGet s.class_hash_update addr = none →
      s.backend.contract_class_hash_get_at addr s.block_number = .ok none →
      s.get_class_hash_at addr = .ok 0) ∧
    (∀ ext ch, indexMapGet s.contract_class_update ch = none →
      s.backend.contract_class_data_get ch = .ok none →
      BlockifierStateAdapter.get_compiled_contract_class ext s ch =
        .error (.UndeclaredClassHash ch)) ∧
    (∀ ch, indexMapGet s.compiled_class_hash_update ch = none →
      s.backend.contract_class_hashes_get ch = .ok none →
      s.get_compiled_class_hash ch = .error (.UndeclaredClassHash ch)) := by
  refine ⟨?_, ?_, ?_, ?_, ?_⟩
  · intro addr key h hbuf hbk
    unfold BlockifierStateAdapter.get_storage_at
    rw [if_neg h, hbuf, hbk]
  · intro addr hbuf hbk
    unfold BlockifierStateAdapter.get_nonce_at
    rw [hbuf, hbk]
  · intro addr hbuf hbk
    unfold BlockifierStateAdapter.get_class_hash_at
    rw [hbuf, hbk]
  · intro ext ch hbuf hbk
    unfold BlockifierStateAdapter.get_compiled_contract_class
    rw [hbuf, hbk]
  · intro ch hbuf hbk
    unfold BlockifierStateAdapter.get_compiled_class_hash
    rw [hbuf, hbk]

/-- C4 witness: concrete zero defaults and undeclared-class errors on a fresh
overlay over an all-"not found" backend. -/
theorem C4_absent_defaults_vs_undeclared_witness :
    sNone.get_storage_at 2 3 = .ok 0 ∧
    sNone.get_nonce_at 2 = .ok 0 ∧
    sNone.get_class_hash_at 2 = .ok 0 ∧
    BlockifierStateAdapter.get_compiled_contract_class extNone sNone 9 =
      .error (.UndeclaredClassHash 9) ∧
    sNone.get_compiled_class_hash 9 = .error (.UndeclaredClassHash 9) :=
  ⟨(C4_absent_defaults_vs_undeclared sNone).1 2 3 (by decide) rfl rfl,
   (C4_absent_defaults_vs_undeclared sNone).2.1 2 rfl rfl,
   (C4_absent_defaults_vs_undeclared sNone).2.2.1 2 rfl rfl,
   (C4_absent_defaults_vs_undeclared sNone).2.2.2.1 extNone 9 rfl rfl,
   (C4_absent_defaults_vs_undeclared sNone).2.2.2.2 9 rfl rfl⟩

theorem collect_sierra_entry_points_positional
    (entries : List (EntryPointType × List EntryPointV1)) (k : EntryPointType)
    (l : List SierraEntryPoint) (h : collect_sierra_entry_points entries k = .ok l) :
    ∀ i (hi : i < l.length), (l.get ⟨i, hi⟩).function_idx = i := by
  intro i hi
  unfold collect_sierra_entry_points at h
  cases hg : hashMapGet entries k with
  | none => rw [hg] at h; cases h
  | some b =>
    rw [hg] at h
    cases h
    simp [to_entry_point, List.getElem_enum]

theorem collect_sierra_entry_points_reindex
    (entries : List (EntryPointType × List EntryPointV1)) (g : EntryPointV1 → Nat)
    (k : EntryPointType) :
    collect_sierra_entry_points
      (entries.map fun kv => (kv.1, kv.2.map fun e =>
        { selector := e.selector, function_idx := g e })) k =
      collect_sierra_entry_points entries k := by
  unfold collect_sierra_entry_points
  rw [hashMapGet_map_snd]
  cases hashMapGet entries k with
  | none => rfl
  | some b =>
    show Except.ok (((b.map fun e => { selector := e.selector, function_idx := g e }).enum).map
        fun ie => to_entry_point ie.2 ie.1) =
      Except.ok ((b.enum).map fun ie => to_entry_point ie.2 ie.1)
    rw [List.enum_map, List.map_map]
    rfl

theorem to_entry_points_by_type_reindex
    (entries : List (EntryPointType × List EntryPointV1)) (g : EntryPointV1 → Nat) :
    to_entry_points_by_type
      (entries.map fun kv => (kv.1, kv.2.map fun e =>
        { selector := e.selector, function_idx := g e })) =
      to_entry_points_by_type entries := by
  unfold to_entry_points_by_type
  rw [collect_sierra_entry_points_reindex, collect_sierra_entry_points_reindex,
    collect_sierra_entry_points_reindex]

/-- C5: encoding a compiled class's entry points assigns each entry the
function index equal to its zero-based position in its kind's bucket, the
input entries' own function indices being irrelevant (so any reindexing of
the input encodes to the identical result). -/
theorem C5_compiled_entry_point_indices_positional
    (entries : List (EntryPointType × List EntryPointV1)) (r : EntryPointsByType)
    (h : to_entry_points_by_type entries = .ok r) :
    (∀ i (hi : i < r.constructor_.length), (r.constructor_.get ⟨i, hi⟩).function_idx = i) ∧
    (∀ i (hi : i < r.external.length), (r.external.get ⟨i, hi⟩).function_idx = i) ∧
    (∀ i (hi : i < r.l1_handler.length), (r.l1_handler.get ⟨i, hi⟩).function_idx = i) ∧
    (∀ g : EntryPointV1 → Nat,
      to_entry_points_by_type (entries.map fun kv => (kv.1, kv.2.map fun e =>
        { selector := e.selector, function_idx := g e })) = .ok r) := by
  refine ⟨?_, ?_, ?_, ?_⟩
  case _ =>
    unfold to_entry_points_by_type at h
    cases he : collect_sierra_entry_points entries .External with
    | error e => rw [he] at h; cases h
    | ok ext =>
      rw [he] at h
      cases h
      cases hc : collect_sierra_entry_points entries .Constructor with
      | error e => simp [hc]
      | ok l => simpa [hc] using collect_sierra_entry_points_positional entries _ l hc
  case _ =>
    unfold to_entry_points_by_type at h
    cases he : collect_sierra_entry_points entries .External with
    | error e => rw [he] at h; cases h
    | ok ext =>
      rw [he] at h
      cases h
      simpa using collect_sierra_entry_points_positional entries _ ext he
  case _ =>
    unfold to_entry_points_by_type at h
    cases he : collect_sierra_entry_points entries .External with
    | error e => rw [he] at h; cases h
    | ok ext =>
      rw [he] at h
      cases h
      cases hl : collect_sierra_entry_points entries .L1Handler with
      | error e => simp [hl]
      | ok l => simpa [hl] using collect_sierra_entry_points_positional entries _ l hl
  case _ =>
    intro g
    rw [to_entry_points_by_type_reindex]
    exact h

/-- Concrete compiled entry-point buckets with out-of-order input indices. -/
def epEntries : List (EntryPointType × List EntryPointV1) :=
  [(.External, [{ selector := 11, function_idx := 7 }, { selector := 22, function_idx := 3 }]),
   (.Constructor, [{ selector := 33, function_idx := 9 }])]

/-- The wire-form buckets `epEntries` encodes to. -/
def epResult : EntryPointsByType :=
  { constructor_ := [{ selector := 33, function_idx := 0 }],
    external := [{ selector := 11, function_idx := 0 }, { selector := 22, function_idx := 1 }],
    l1_handler := [] }

/-- C5 witness: the concrete buckets encode with positional indices. -/
theorem C5_compiled_entry_point_indices_witness :
    to_entry_points_by_type epEntries = .ok epResult ∧
    (epResult.external.get ⟨0, by decide⟩).function_idx = 0 ∧
    (epResult.external.get ⟨1, by decide⟩).function_idx = 1 ∧
    (epResult.constructor_.get ⟨0, by decide⟩).function_idx = 0 :=
  ⟨by decide,
   (C5_compiled_entry_point_indices_positional epEntries epResult (by decide)).2.1 0 (by decide),
   (C5_compiled_entry_point_indices_positional epEntries epResult (by decide)).2.1 1 (by decide),
   (C5_compiled_entry_point_indices_positional epEntries epResult (by decide)).1 0 (by decide)⟩

/-- C6: converting a wrapped class/ABI pair to wire form rejects mismatched
tags: a `V1` (compiled) class with a `Cairo` ABI and a `V0` (legacy) class
with a `Sierra` ABI both fail with the corresponding `Invalid ABI type`
error, whatever the external serializers would do. -/
theorem C6_abi_class_pairing_mismatch (ext : CodecExt) :
    (∀ (c : ContractClassV1) (abi : Option String) (spl al : Nat),
      ContractClassWrapper.try_into_core ext
        { contract := .V1 c, abi := .Cairo abi,
          sierra_program_length := spl, abi_length := al } =
        .error (.Msg "Invalid ABI type for Sierra")) ∧
    (∀ (c : ContractClassV0) (abi : String) (spl al : Nat),
      ContractClassWrapper.try_into_core ext
        { contract := .V0 c, abi := .Sierra abi,
          sierra_program_length := spl, abi_length := al } =
        .error (.Msg "Invalid ABI type for Cairo")) :=
  ⟨fun _ _ _ _ => rfl, fun _ _ _ _ => rfl⟩

/-- C7: in both entry-point reshapes an absent `External` bucket is the hard
error `Missing External entry point`, while absent `Constructor` and
`L1Handler` buckets default to empty lists. -/
theorem C7_external_required_others_default :
    (∀ entries : List (EntryPointType × List EntryPoint),
      hashMapGet entries EntryPointType.External = none →
      to_legacy_entry_points_by_type entries = .error "Missing External entry point") ∧
    (∀ (entries : List (EntryPointType × List EntryPoint))
        (extL : List EntryPoint),
      hashMapGet entries EntryPointType.External = some extL →
      hashMapGet entries EntryPointType.Constructor = none →
      hashMapGet entries EntryPointType.L1Handler = none →
      to_legacy_entry_points_by_type entries =
        .ok { constructor_ := [], external := extL.map to_legacy_entry_point,
              l1_handler := [] }) ∧
    (∀ entries : List (EntryPointType × List EntryPointV1),
      hashMapGet entries EntryPointType.External = none →
      to_entry_points_by_type entries = .error "Missing External entry point") ∧
    (∀ (entries : List (EntryPointType × List EntryPointV1))
        (extL : List EntryPointV1),
      hashMapGet entries EntryPointType.External = some extL →
      hashMapGet entries EntryPointType.Constructor = none →
      hashMapGet entries EntryPointType.L1Handler = none →
      to_entry_points_by_type entries =
        .ok { constructor_ := [],
              external := extL.enum.map fun ie => to_entry_point ie.2 ie.1,
              l1_handler := [] }) := by
  refine ⟨?_, ?_, ?_, ?_⟩
  · intro entries he
    simp [to_legacy_entry_points_by_type, collect_legacy_entry_points, he,
      entryPointTypeDebug]
  · intro entries extL he hc hl
    simp [to_legacy_entry_points_by_type, collect_legacy_entry_points, he, hc, hl]
  · intro entries he
    simp [to_entry_points_by_type, collect_sierra_entry_points, he, entryPointTypeDebug]
  · intro entries extL he hc hl
    simp [to_entry_points_by_type, collect_sierra_entry_points, he, hc, hl]

/-- C7 witness: concrete bucket maps — missing `External` errors, missing
`Constructor`/`L1Handler` default to empty. -/
theorem C7_external_required_others_default_witness :
    to_legacy_entry_points_by_type [(.Constructor, [{ selector := 1, offset := 2 }])] =
      .error "Missing External entry point" ∧
    to_legacy_entry_points_by_type [(.External, [{ selector := 5, offset := 10 }])] =
      .ok { constructor_ := [], external := [{ selector := 5, offset := 10 }],
            l1_handler := [] } ∧
    to_entry_points_by_type [(.Constructor, [{ selector := 1, function_idx := 2 }])] =
      .error "Missing External entry point" ∧
    to_entry_points_by_type [(.External, [{ selector := 7, function_idx := 42 }])] =
      .ok { constructor_ := [], external := [{ selector := 7, function_idx := 0 }],
            l1_handler := [] } :=
  ⟨C7_external_required_others_default.1 [(.Constructor, [{ selector := 1, offset := 2 }])] rfl,
   C7_external_required_others_default.2.1 [(.External, [{ selector := 5, offset := 10 }])]
     [{ selector := 5, offset := 10 }] rfl rfl rfl,
   C7_external_required_others_default.2.2.1
     [(.Constructor, [{ selector := 1, function_idx := 2 }])] rfl,
   C7_external_required_others_default.2.2.2
     [(.External, [{ selector := 7, function_idx := 42 }])]
     [{ selector := 7, function_idx := 42 }] rfl rfl rfl⟩

theorem typedParam_roundtrip_list (ps : List LegacyTypedParameter) :
    ps.map (LegacyTypedParameter.fromWrapper ∘ AbiTypedParameterWrapper.fromLegacy) = ps := by
  induction ps with
  | nil => rfl
  | cons p rest ih =>
    simp [Function.comp, AbiTypedParameterWrapper.fromLegacy,
      LegacyTypedParameter.fromWrapper, ih]

/-- C8: wire `Constructor` / `L1Handler` ABI entries fold into `Function`
entries named `constructor` / `l1_handler` with the original inputs, empty
outputs and no state mutability; the internal-to-wire direction only produces
`Function`/`Event`/`Struct` tags, so the round trip of a `Constructor` or
`L1Handler` entry is a `Function`-tagged wire entry. -/
theorem C8_constructor_l1handler_folding :
    (∀ c : RawLegacyConstructor,
      AbiEntryWrapper.fromRaw (.Constructor c) =
        .Function { name := "constructor",
                    inputs := c.inputs.map AbiTypedParameterWrapper.fromLegacy,
                    outputs := [], state_mutability := none }) ∧
    (∀ l : RawLegacyL1Handler,
      AbiEntryWrapper.fromRaw (.L1Handler l) =
        .Function { name := "l1_handler",
                    inputs := l.inputs.map AbiTypedParameterWrapper.fromLegacy,
                    outputs := [], state_mutability := none }) ∧
    (∀ w : AbiEntryWrapper,
      (RawLegacyAbiEntry.fromWrapper w).isConstructorOrL1HandlerTagged = false) ∧
    (∀ c : RawLegacyConstructor,
      RawLegacyAbiEntry.fromWrapper (AbiEntryWrapper.fromRaw (.Constructor c)) =
        .Function { name := "constructor", inputs := c.inputs, outputs := [],
                    state_mutability := none }) ∧
    (∀ l : RawLegacyL1Handler,
      RawLegacyAbiEntry.fromWrapper (AbiEntryWrapper.fromRaw (.L1Handler l)) =
        .Function { name := "l1_handler", inputs := l.inputs, outputs := [],
                    state_mutability := none }) := by
  refine ⟨fun c => rfl, fun l => rfl, ?_, ?_, ?_⟩
  · intro w
    cases w <;> rfl
  · intro c
    simp [AbiEntryWrapper.fromRaw, RawLegacyAbiEntry.fromWrapper,
      AbiFunctionEntryWrapper.fromRaw, RawLegacyFunction.fromWrapper,
      typedParam_roundtrip_list]
  · intro l
    simp [AbiEntryWrapper.fromRaw, RawLegacyAbiEntry.fromWrapper,
      AbiFunctionEntryWrapper.fromRaw, RawLegacyFunction.fromWrapper,
      typedParam_roundtrip_list]

/-- C9: the repository's `compress`/`decompress` wrappers round-trip every
byte sequence (including the empty one), given the gzip codec's documented
losslessness contract (`GzipCodec.decode_encode`). -/
theorem C9_compress_decompress_roundtrip (gz : GzipCodec) (b : List Nat) :
    (compress gz b).bind (fun compressed => decompress gz compressed) = .ok b := by
  show decompress gz (gz.encode b) = Except.ok b
  exact gz.decode_encode b

/-- The identity codec satisfies the gzip losslessness contract. -/
def idCodec : GzipCodec :=
  { encode := fun data => data, decode := fun data => .ok data,
    decode_encode := fun _ => rfl }

/-- C9 witness: the round trip evaluated at a concrete codec and input. -/
theorem C9_compress_decompress_roundtrip_witness :
    (compress idCodec [104, 105]).bind (fun compressed => decompress idCodec compressed) =
      .ok [104, 105] :=
  C9_compress_decompress_roundtrip idCodec [104, 105]
